import Mathlib

/-!
Shallow embedding of the SMTP proxy's per-connection session handler
(`smtp_proxy/smtp/session.py`).

Modelling conventions:
* Byte strings on the wire are modelled as `List Char` (every byte a
  character of code < 256); `bytes.decode` / `str.encode` between ASCII
  data are modelled as the identity.
* Each blocking line read is an `InEvent`: either a received line
  (`InEvent.line`, where the empty line models EOF, exactly as Python's
  `StreamReader.readline` returns `b""` at EOF) or an elapsed
  `read_timeout_seconds` deadline (`InEvent.timeout`).
* A session consumes a finite list of such events; an exhausted event
  list models a read that never returns, and the session run simply
  stops there.
* The result of the external TLS handshake performed by STARTTLS is an
  oracle: a list of `Bool` outcomes consumed in order, an empty list
  counting as a failed handshake.
* Replies are an enumeration of the exact reply lines the source emits;
  the variable text (domain, SIZE value, 454 reason) is carried as data.
-/

namespace SMTPProxy

/-- Python `bytes.strip` / `str.strip` whitespace set. -/
def isPyWs (c : Char) : Bool :=
  c = ' ' || c = '\t' || c = '\n' || c = '\r' || c = '\x0b' || c = '\x0c'

/-- Python `s.strip()`: drop whitespace from both ends. -/
def pyStrip (l : List Char) : List Char :=
  ((l.dropWhile isPyWs).reverse.dropWhile isPyWs).reverse

/-- Python `s.upper()` (ASCII case mapping suffices for the protocol). -/
def pyUpper (l : List Char) : List Char :=
  l.map Char.toUpper

/-- Python `s.split()` with no separator: whitespace-delimited tokens,
empty tokens dropped. -/
def pySplit (l : List Char) : List (List Char) :=
  (l.foldr
    (fun c acc =>
      if isPyWs c then [] :: acc
      else
        match acc with
        | [] => [[c]]
        | t :: ts => (c :: t) :: ts)
    []).filter (fun t => ¬ t = [])

/-- First whitespace-delimited token of a line (`line.split(None, 1)`
followed by `parts[0]`); `[]` when the line is all whitespace. -/
def firstToken (l : List Char) : List Char :=
  (pySplit l).getD 0 []

/-- Python `s.split("\x00")`: split on every NUL, keeping empty fields. -/
def splitNul (l : List Char) : List (List Char) :=
  l.foldr
    (fun c acc =>
      match acc with
      | [] => [[c]]
      | t :: ts => if c = '\x00' then [] :: t :: ts else (c :: t) :: ts)
    [[]]

/-- Does `pat` occur as a prefix of `l`? -/
def listStarts : List Char → List Char → Bool
  | [], _ => true
  | _ :: _, [] => false
  | p :: ps, c :: cs => p = c && listStarts ps cs

/-- Python `big.index(pat)` / `pat in big`: index of the first occurrence
of `pat` as a contiguous sublist of `l`, if any. -/
def findSub (pat : List Char) : List Char → Option Nat
  | [] => if pat = [] then some 0 else none
  | c :: rest =>
      if listStarts pat (c :: rest) then some 0
      else (findSub pat rest).map (· + 1)

/-- Python `addr[1:-1]` applied when `addr.startswith("<") and addr.endswith(">")`
(both from the MAIL and RCPT address cleanup in `session.py`). -/
def stripAngles (l : List Char) : List Char :=
  if listStarts ("<".data) l ∧ l.getLast? = some '>' then (l.drop 1).dropLast
  else l

/-- Value of one base64 alphabet character (`A-Z a-z 0-9 + /`). -/
def b64val (c : Char) : Option Nat :=
  if 'A' ≤ c ∧ c ≤ 'Z' then some (c.toNat - 65)
  else if 'a' ≤ c ∧ c ≤ 'z' then some (c.toNat - 97 + 26)
  else if '0' ≤ c ∧ c ≤ '9' then some (c.toNat - 48 + 52)
  else if c = '+' then some 62
  else if c = '/' then some 63
  else none

/-- Decode a base64 string already reduced to whole 4-character groups,
with `=` padding allowed only at the very end.  Models the Python
standard library `base64.b64decode` on well-formed input; any
malformation yields `none` (Python raises, which the callers in
`session.py` catch). -/
def b64groups : List Char → Option (List Char)
  | [] => some []
  | a :: b :: c :: d :: rest =>
      match b64val a, b64val b with
      | some va, some vb =>
          if c = '=' ∧ d = '=' ∧ rest = [] then
            some [Char.ofNat ((va * 4 + vb / 16) % 256)]
          else
            match b64val c with
            | some vc =>
                if d = '=' ∧ rest = [] then
                  some [Char.ofNat ((va * 4 + vb / 16) % 256),
                        Char.ofNat ((vb * 16 + vc / 4) % 256)]
                else
                  match b64val d with
                  | some vd =>
                      (b64groups rest).map
                        (fun tail =>
                          Char.ofNat ((va * 4 + vb / 16) % 256) ::
                          Char.ofNat ((vb * 16 + vc / 4) % 256) ::
                          Char.ofNat ((vc * 64 + vd) % 256) :: tail)
                  | none => none
            | none => none
      | _, _ => none
  | _ => none

/-- Model of `base64.b64decode` with default arguments: characters outside the
alphabet and padding are discarded first, then the length must be a
multiple of 4. -/
def b64decode (s : List Char) : Option (List Char) :=
  let t := s.filter (fun c => (b64val c).isSome || c = '=')
  if t.length % 4 = 0 then b64groups t else none

/-- The `auth` section of `SMTPConfig` (config.py): `required`, `username`,
`password`. -/
structure AuthConfig where
  required : Bool
  username : List Char
  password : List Char
  deriving DecidableEq

/-- The `tls` section of `SMTPConfig`: only `enabled` is state-relevant here
(cert/key paths feed the external handshake, which the oracle models). -/
structure TLSConfig where
  enabled : Bool
  deriving DecidableEq

/-- The configuration fields `session.py` reads. -/
structure SMTPConfig where
  domain : List Char
  maxMessageBytes : Nat
  maxRecipients : Nat
  auth : AuthConfig
  tls : TLSConfig
  deriving DecidableEq

/-- Session state from `SMTPSession.__init__`, plus `tlsWrapped`
recording whether the transport has been swapped for a TLS one by a
successful STARTTLS (the spec's `transport` field). -/
structure SessionState where
  authenticated : Bool
  auth_user : List Char
  mail_from : List Char
  rcpt_to : List (List Char)
  client_ip : List Char
  tlsWrapped : Bool
  deriving DecidableEq

/-- Initial session state (`__init__` with `client_ip` set by `handle`). -/
def initialState (ip : List Char) : SessionState :=
  { authenticated := false
    auth_user := []
    mail_from := []
    rcpt_to := []
    client_ip := ip
    tlsWrapped := false }

/-- Embedding of `SMTPSession._reset_transaction`. -/
def resetTransaction (st : SessionState) : SessionState :=
  { st with mail_from := [], rcpt_to := [] }

/-- One blocking line read: a received line (`[]` = EOF) or an elapsed
`read_timeout_seconds` deadline. -/
inductive InEvent where
  | line (l : List Char)
  | timeout
  deriving DecidableEq

/-- Pop the next read event; an exhausted stream behaves as EOF-forever,
as Python's `readline` returns `b""` at EOF on every call. -/
def readEv : List InEvent → InEvent × List InEvent
  | [] => (.line [], [])
  | e :: es => (e, es)

/-- A single EHLO reply line (`_handle_ehlo`'s `extensions`). -/
inductive EhloLine where
  | hello (domain : List Char)
  | authPlainLogin
  | starttls
  | size (n : Nat)
  | ok
  deriving DecidableEq

/-- The reply lines `session.py` sends, one constructor per distinct
message. -/
inductive Reply where
  | greeting (domain : List Char)
  | ehlo (l : EhloLine)
  | bye221
  | ok250
  | accepted250
  | err501
  | unsupportedMech504
  | authSuccess235
  | authFailed535
  | authRequired530
  | tooMany452
  | badSeq503
  | unknown500
  | startInput354
  | tooLarge552
  | starttlsNA502
  | readyTLS220
  | tlsNotAvail454
  | timeout421
  | contBlank334
  | userPrompt334
  | passPrompt334
  deriving DecidableEq

/-- A stored message: the claim-relevant fields of `models.Email` as
built in `_handle_data` (`subject`/`body` come from the external
`email` stdlib parser and `received_at` from the clock; none of the
claims mention them, so they are not modelled). -/
structure Email where
  sender : List Char
  recipients : List (List Char)
  raw_message : List Char
  size_bytes : Nat
  status : List Char
  auth_user : List Char
  client_ip : List Char
  deriving DecidableEq

/-- The terminator check `line in (b".\r\n", b".\n")`. -/
def isTerminator (l : List Char) : Bool :=
  l = (".\r\n".data) || l = (".\n".data)

/-- The dot-stuffing removal in `_handle_data`:
`if line.startswith(b".."): line = line[1:]`. -/
def unstuff (l : List Char) : List Char :=
  if listStarts ("..".data) l then l.drop 1 else l

/-- Outcome of the DATA body read loop. -/
inductive DataOutcome where
  | completed (raw : List Char)
  | tooLarge
  | timedOut
  | starved
  deriving DecidableEq

/-- The `while True` body-read loop of `_handle_data`: pops one event
per iteration; terminator line ends the body, a timeout aborts, and an
unstuffed line that pushes the running total past `maxBytes` aborts
with overflow.  `starved` marks an exhausted event stream (a read that
never returned). -/
def dataLoop (maxBytes : Nat) : List InEvent → List Char → Nat → DataOutcome × List InEvent
  | [], _, _ => (.starved, [])
  | e :: evs, acc, total =>
      match e with
      | .timeout => (.timedOut, evs)
      | .line l =>
          if isTerminator l then (.completed acc, evs)
          else
            let l' := unstuff l
            let total' := total + l'.length
            if total' > maxBytes then (.tooLarge, evs)
            else dataLoop maxBytes evs (acc ++ l') total'

/-- Lines 151–174 of `_handle_auth_plain`, starting from the decoded
credential bytes: split on NUL, pick the username/password fields
(`parts[1], parts[2]` when there are at least three fields,
`parts[0], parts[1]` when exactly two, otherwise raise → `535`), then
compare with the configured pair. -/
def authPlainDecodedCheck (acfg : AuthConfig) (st : SessionState) (decoded : List Char) :
    Reply × SessionState :=
  let ps := splitNul decoded
  let creds : Option (List Char × List Char) :=
    if 3 ≤ ps.length then some (ps.getD 1 [], ps.getD 2 [])
    else if ps.length = 2 then some (ps.getD 0 [], ps.getD 1 [])
    else none
  match creds with
  | none => (.authFailed535, st)
  | some (u, p) =>
      if u = acfg.username ∧ p = acfg.password then
        (.authSuccess235, { st with authenticated := true, auth_user := u })
      else (.authFailed535, st)

/-- The credential verification of `_handle_auth_plain` from the raw
base64 blob: a decode failure is caught and answered `535`. -/
def authPlainVerify (acfg : AuthConfig) (st : SessionState) (credentials : List Char) :
    Reply × SessionState :=
  match b64decode credentials with
  | none => (.authFailed535, st)
  | some decoded => authPlainDecodedCheck acfg st decoded

/-- Embedding of `SMTPSession._handle_auth_plain`.  `parts` is the full
whitespace-split command line.  When no blob was given inline the
server sends `334 ` and reads one continuation line; a timeout on that
read is answered `421 Timeout` and closes the session (`return False`).
Returns (replies, keep-session-open, state, remaining events). -/
def handle_auth_plain (acfg : AuthConfig) (st : SessionState)
    (parts : List (List Char)) (evs : List InEvent) :
    List Reply × Bool × SessionState × List InEvent :=
  if parts.length = 3 then
    let r := authPlainVerify acfg st (parts.getD 2 [])
    ([r.1], true, r.2, evs)
  else
    match readEv evs with
    | (.timeout, evs') => ([.contBlank334, .timeout421], false, st, evs')
    | (.line l, evs') =>
        let r := authPlainVerify acfg st (pyStrip l)
        ([.contBlank334, r.1], true, r.2, evs')

/-- Embedding of `SMTPSession._handle_auth_login`: prompt for username and password,
base64-decoding each continuation line.  The whole dialogue sits in a
`try/except Exception` whose handler falls through to
`535 Authentication failed` with the session kept open — a timeout on
either read is an `asyncio.TimeoutError`, also an `Exception`, so it
takes that path too. -/
def handle_auth_login (acfg : AuthConfig) (st : SessionState) (evs : List InEvent) :
    List Reply × Bool × SessionState × List InEvent :=
  match readEv evs with
  | (.timeout, evs1) => ([.userPrompt334, .authFailed535], true, st, evs1)
  | (.line l1, evs1) =>
      match b64decode (pyStrip l1) with
      | none => ([.userPrompt334, .authFailed535], true, st, evs1)
      | some user =>
          match readEv evs1 with
          | (.timeout, evs2) =>
              ([.userPrompt334, .passPrompt334, .authFailed535], true, st, evs2)
          | (.line l2, evs2) =>
              match b64decode (pyStrip l2) with
              | none => ([.userPrompt334, .passPrompt334, .authFailed535], true, st, evs2)
              | some pw =>
                  if user = acfg.username ∧ pw = acfg.password then
                    ([.userPrompt334, .passPrompt334, .authSuccess235], true,
                     { st with authenticated := true, auth_user := user }, evs2)
                  else
                    ([.userPrompt334, .passPrompt334, .authFailed535], true, st, evs2)

/-- Embedding of `SMTPSession._handle_auth`: mechanism dispatch. -/
def handle_auth (acfg : AuthConfig) (st : SessionState) (line : List Char)
    (evs : List InEvent) : List Reply × Bool × SessionState × List InEvent :=
  let parts := pySplit line
  if parts.length < 2 then ([.err501], true, st, evs)
  else
    let mech := pyUpper (parts.getD 1 [])
    if mech = ("PLAIN".data) then handle_auth_plain acfg st parts evs
    else if mech = ("LOGIN".data) then handle_auth_login acfg st evs
    else ([.unsupportedMech504], true, st, evs)

/-- The address extraction of `_handle_mail` given the index of `FROM:`
in the upper-cased line: take the rest, strip, keep the first token if
a space is present (discards `SIZE=`), strip angle brackets. -/
def mailAddrAt (line : List Char) (idx : Nat) : List Char :=
  let addr0 := pyStrip (line.drop (idx + 5))
  let addr1 := if addr0.contains ' ' then firstToken addr0 else addr0
  stripAngles addr1

/-- Embedding of `SMTPSession._handle_mail`. -/
def handle_mail (cfg : SMTPConfig) (st : SessionState) (line : List Char) :
    List Reply × SessionState :=
  if cfg.auth.required ∧ ¬ st.authenticated then ([.authRequired530], st)
  else
    match findSub ("FROM:".data) (pyUpper line) with
    | none => ([.err501], st)
    | some idx => ([.ok250], { st with mail_from := mailAddrAt line idx })

/-- The address extraction of `_handle_rcpt` given the index of `TO:`
in the upper-cased line. -/
def rcptAddrAt (line : List Char) (idx : Nat) : List Char :=
  stripAngles (pyStrip (line.drop (idx + 3)))

/-- Embedding of `SMTPSession._handle_rcpt`. -/
def handle_rcpt (cfg : SMTPConfig) (st : SessionState) (line : List Char) :
    List Reply × SessionState :=
  if cfg.auth.required ∧ ¬ st.authenticated then ([.authRequired530], st)
  else if cfg.maxRecipients ≤ st.rcpt_to.length then ([.tooMany452], st)
  else
    match findSub ("TO:".data) (pyUpper line) with
    | none => ([.err501], st)
    | some idx =>
        ([.ok250], { st with rcpt_to := st.rcpt_to ++ [rcptAddrAt line idx] })

/-- The `Email` record `_handle_data` builds from the session state and
the accumulated body. -/
def mkEmail (st : SessionState) (raw : List Char) : Email :=
  { sender := st.mail_from
    recipients := st.rcpt_to
    raw_message := raw
    size_bytes := raw.length
    status := ("received".data)
    auth_user := st.auth_user
    client_ip := st.client_ip }

/-- Embedding of `SMTPSession._handle_data`: guards, `354`, body loop, then either
abort (timeout `421` + close, overflow `552` + transaction reset + keep
open) or commit the email and reset.  Returns
(replies, keep-open, state, remaining events, stored emails). -/
def handle_data (cfg : SMTPConfig) (st : SessionState) (evs : List InEvent) :
    List Reply × Bool × SessionState × List InEvent × List Email :=
  if cfg.auth.required ∧ ¬ st.authenticated then ([.authRequired530], true, st, evs, [])
  else if st.mail_from = [] ∨ st.rcpt_to = [] then ([.badSeq503], true, st, evs, [])
  else
    match dataLoop cfg.maxMessageBytes evs [] 0 with
    | (.timedOut, evs') => ([.startInput354, .timeout421], false, st, evs', [])
    | (.tooLarge, evs') =>
        ([.startInput354, .tooLarge552], true, resetTransaction st, evs', [])
    | (.starved, evs') => ([.startInput354], false, st, evs', [])
    | (.completed raw, evs') =>
        ([.startInput354, .accepted250], true, resetTransaction st, evs',
         [mkEmail st raw])

/-- Embedding of `SMTPSession._handle_rset`. -/
def handle_rset (st : SessionState) : List Reply × SessionState :=
  ([.ok250], resetTransaction st)

/-- Embedding of `SMTPSession._handle_ehlo`: the reply block.  `250-AUTH PLAIN LOGIN`
iff auth is required or a username is configured; `250-STARTTLS` iff
`tls.enabled` — the source consults no session state here. -/
def ehloLines (cfg : SMTPConfig) : List EhloLine :=
  [EhloLine.hello cfg.domain]
    ++ (if cfg.auth.required ∨ ¬ cfg.auth.username = [] then [EhloLine.authPlainLogin] else [])
    ++ (if cfg.tls.enabled then [EhloLine.starttls] else [])
    ++ [EhloLine.size cfg.maxMessageBytes, EhloLine.ok]

/-- Embedding of `SMTPSession._handle_starttls`: `502` when TLS is disabled;
otherwise `220 Ready to start TLS` and the external handshake, whose
outcome the oracle supplies (empty oracle = failure).  Success swaps
the transport and resets `authenticated`, `auth_user` and the
transaction; failure replies `454` and leaves the state untouched. -/
def handle_starttls (cfg : SMTPConfig) (st : SessionState) (hs : List Bool) :
    List Reply × SessionState × List Bool :=
  if ¬ cfg.tls.enabled then ([.starttlsNA502], st, hs)
  else
    match hs with
    | [] => ([.readyTLS220, .tlsNotAvail454], st, [])
    | ok :: rest =>
        if ok then
          ([.readyTLS220],
           { st with authenticated := false, auth_user := [],
                     mail_from := [], rcpt_to := [], tlsWrapped := true },
           rest)
        else ([.readyTLS220, .tlsNotAvail454], st, rest)

/-- The command words `_process_command` dispatches on. -/
inductive Cmd where
  | ehlo | auth | mail | rcpt | data | rset | quit | noop | starttls | unknown
  deriving DecidableEq

/-- The `elif` chain of `_process_command` on the upper-cased first
token. -/
def parseCmd (w : List Char) : Cmd :=
  if w = ("EHLO".data) ∨ w = ("HELO".data) then .ehlo
  else if w = ("AUTH".data) then .auth
  else if w = ("MAIL".data) then .mail
  else if w = ("RCPT".data) then .rcpt
  else if w = ("DATA".data) then .data
  else if w = ("RSET".data) then .rset
  else if w = ("QUIT".data) then .quit
  else if w = ("NOOP".data) then .noop
  else if w = ("STARTTLS".data) then .starttls
  else .unknown

/-- Result of processing one command line. -/
structure StepResult where
  replies : List Reply
  keepOpen : Bool
  state : SessionState
  evs : List InEvent
  hs : List Bool
  emails : List Email
  deriving DecidableEq

/-- Embedding of `SMTPSession._process_command` on a stripped, non-empty line. -/
def processCommand (cfg : SMTPConfig) (st : SessionState) (line : List Char)
    (evs : List InEvent) (hs : List Bool) : StepResult :=
  match parseCmd (pyUpper (firstToken line)) with
  | .ehlo =>
      ⟨(ehloLines cfg).map Reply.ehlo, true, st, evs, hs, []⟩
  | .auth =>
      let r := handle_auth cfg.auth st line evs
      ⟨r.1, r.2.1, r.2.2.1, r.2.2.2, hs, []⟩
  | .mail =>
      let r := handle_mail cfg st line
      ⟨r.1, true, r.2, evs, hs, []⟩
  | .rcpt =>
      let r := handle_rcpt cfg st line
      ⟨r.1, true, r.2, evs, hs, []⟩
  | .data =>
      let r := handle_data cfg st evs
      ⟨r.1, r.2.1, r.2.2.1, r.2.2.2.1, hs, r.2.2.2.2⟩
  | .rset =>
      let r := handle_rset st
      ⟨r.1, true, r.2, evs, hs, []⟩
  | .quit => ⟨[.bye221], false, st, evs, hs, []⟩
  | .noop => ⟨[.ok250], true, st, evs, hs, []⟩
  | .starttls =>
      let r := handle_starttls cfg st hs
      ⟨r.1, true, r.2.1, evs, r.2.2, []⟩
  | .unknown => ⟨[.unknown500], true, st, evs, hs, []⟩

/-- The command loop of `SMTPSession.handle`: read a line (timeout →
`421 Timeout` and stop; EOF → stop; blank after strip → continue),
process it, stop when a handler returns `False`.  `fuel` bounds the
recursion; each iteration consumes at least one event, so
`evs.length + 1` fuel never runs out first. -/
def sessionLoop (cfg : SMTPConfig) :
    Nat → SessionState → List InEvent → List Bool →
    List Reply × SessionState × List Email
  | 0, st, _, _ => ([], st, [])
  | _ + 1, st, [], _ => ([], st, [])
  | fuel + 1, st, e :: rest, hs =>
      match e with
      | .timeout => ([.timeout421], st, [])
      | .line l =>
          if l = [] then ([], st, [])
          else
            let cmdline := pyStrip l
            if cmdline = [] then sessionLoop cfg fuel st rest hs
            else
              let r := processCommand cfg st cmdline rest hs
              if r.keepOpen then
                let r2 := sessionLoop cfg fuel r.state r.evs r.hs
                (r.replies ++ r2.1, r2.2.1, r.emails ++ r2.2.2)
              else (r.replies, r.state, r.emails)

/-- Embedding of `SMTPSession.handle`: greeting then the command loop, starting from
the initial state with the peer address recorded. -/
def sessionRun (cfg : SMTPConfig) (ip : List Char) (evs : List InEvent) (hs : List Bool) :
    List Reply × SessionState × List Email :=
  let r := sessionLoop cfg (evs.length + 1) (initialState ip) evs hs
  (Reply.greeting cfg.domain :: r.1, r.2.1, r.2.2)

/-! Concrete configurations and states used by witnesses and
counterexamples. -/

/-- TLS enabled, authentication optional and never advertised
(`auth.required = false`, empty username). -/
def cfgPlainTLS : SMTPConfig :=
  { domain := ("test".data)
    maxMessageBytes := 100
    maxRecipients := 2
    auth := { required := false, username := [], password := [] }
    tls := { enabled := true } }

/-- TLS enabled, authentication required, credential pair `u`/`p`. -/
def cfgAuthTLS : SMTPConfig :=
  { domain := ("test".data)
    maxMessageBytes := 100
    maxRecipients := 2
    auth := { required := true, username := ("u".data), password := ("p".data) }
    tls := { enabled := true } }

/-- No TLS, optional auth, a 4-byte message ceiling for boundary runs. -/
def cfgMax4 : SMTPConfig :=
  { domain := ("test".data)
    maxMessageBytes := 4
    maxRecipients := 2
    auth := { required := false, username := ("u".data), password := ("p".data) }
    tls := { enabled := false } }

/-- An authenticated session with one open transaction. -/
def stReady : SessionState :=
  { authenticated := true
    auth_user := ("u".data)
    mail_from := ("a@x".data)
    rcpt_to := [("b@y".data)]
    client_ip := ("ip".data)
    tlsWrapped := false }

/-- The three DATA body events of S3 (spec section 8). -/
def s3Events : List InEvent :=
  [.line (".hello\r\n".data), .line ("..world\r\n".data), .line (".\r\n".data)]

/-- The session state `_handle_starttls` leaves behind on a successful
handshake: auth and transaction fields cleared, transport TLS-wrapped,
peer address kept. -/
def postUpgrade (st : SessionState) : SessionState :=
  { authenticated := false
    auth_user := []
    mail_from := []
    rcpt_to := []
    client_ip := st.client_ip
    tlsWrapped := true }

/-- The body bytes the DATA loop appends for a list of received lines:
each line after dot-unstuffing, concatenated. -/
def unstuffed (bls : List (List Char)) : List Char :=
  (bls.map unstuff).flatten

/-- The running byte total those appends contribute. -/
def unstuffedSize (bls : List (List Char)) : Nat :=
  (bls.map (fun l => (unstuff l).length)).sum

/-- The line reads of a minimal unauthenticated submission. -/
def demoEvs : List InEvent :=
  [.line ("MAIL FROM:<a@x>\r\n".data), .line ("RCPT TO:<b@y>\r\n".data),
   .line ("DATA\r\n".data), .line ("hi\r\n".data), .line (".\r\n".data),
   .line ("QUIT\r\n".data)]

/-- The `Email` that submission stores. -/
def demoEmail : Email :=
  { sender := ("a@x".data)
    recipients := [("b@y".data)]
    raw_message := ("hi\r\n".data)
    size_bytes := 4
    status := ("received".data)
    auth_user := []
    client_ip := ("ip".data) }

/-! C1 -/

/-- C1 (counterexample).  The DATA loop of `_handle_data` unstuffs only
lines that begin with two dots (`line.startswith(b"..")`), so the S3
body `.hello\r\n`, `..world\r\n`, `.\r\n` accumulates to
`.hello\r\n.world\r\n` (16 bytes), not to the claimed
`hello\r\n.world\r\n` (15 bytes): the single-dot-initial line
`.hello\r\n` is kept verbatim. -/
theorem dot_unstuffing_counterexample :
    dataLoop 1000 s3Events [] 0
      = (.completed (".hello\r\n.world\r\n".data), [])
    ∧ (".hello\r\n.world\r\n".data).length = 16
    ∧ ¬ dataLoop 1000 s3Events [] 0
        = (.completed ("hello\r\n.world\r\n".data), []) := by
  exact ⟨by decide, by decide, by decide⟩

/-- C1 (amended).  In the DATA read loop a received line has exactly one
leading `.` removed iff its first two bytes are both `.`; every other
line — including non-terminator lines whose only leading dot is single —
is appended unchanged.  For the S3 body the accumulated `raw_message`
is `.hello\r\n.world\r\n` with `size_bytes = 16`. -/
theorem dot_unstuffing_amended :
    (∀ l : List Char,
        (∃ l' : List Char, l = '.' :: '.' :: l' ∧ unstuff l = '.' :: l')
        ∨ unstuff l = l)
    ∧ (∀ l' : List Char, unstuff ('.' :: '.' :: l') = '.' :: l')
    ∧ dataLoop 1000 s3Events [] 0
        = (.completed (".hello\r\n.world\r\n".data), [])
    ∧ (".hello\r\n.world\r\n".data).length = 16 := by
  refine ⟨?_, ?_, by decide, by decide⟩
  · intro l
    match l with
    | [] => exact Or.inr rfl
    | [c] =>
        right
        simp [unstuff, listStarts]
    | c1 :: c2 :: t =>
        by_cases h1 : c1 = '.'
        · by_cases h2 : c2 = '.'
          · subst h1; subst h2
            exact Or.inl ⟨t, rfl, by simp [unstuff, listStarts]⟩
          · right
            simp [unstuff, listStarts, h1, h2, eq_comm]
        · right
          simp [unstuff, listStarts, h1, eq_comm]
  · intro l'
    simp [unstuff, listStarts]

/-! C3 -/

/-- C3 (counterexample).  `_handle_auth_plain` uses `len(parts) >= 3`,
not an exact-three check: the blob `AHUAcAB4` decodes to
`\x00u\x00p\x00x`, which splits into four NUL fields, yet with
configured credentials `u`/`p` the session replies
`235 Authentication successful` and becomes authenticated — not the
claimed `535` rejection. -/
theorem auth_plain_shape_counterexample :
    b64decode ("AHUAcAB4".data) = some ("\x00u\x00p\x00x".data)
    ∧ (splitNul ("\x00u\x00p\x00x".data)).length = 4
    ∧ handle_auth_plain cfgAuthTLS.auth (initialState ("ip".data))
        [("AUTH".data), ("PLAIN".data), ("AHUAcAB4".data)] []
      = ([.authSuccess235], true,
         { initialState ("ip".data) with
             authenticated := true, auth_user := ("u".data) }, [])
    ∧ (handle_auth_plain cfgAuthTLS.auth (initialState ("ip".data))
        [("AUTH".data), ("PLAIN".data), ("AHUAcAB4".data)] []).2.2.1.authenticated
      = true := by
  exact ⟨by decide, by decide, by decide, by decide⟩

/-- C3 (amended).  After base64-decoding and splitting the blob on NUL
bytes: **three or more** fields use the second and third as
username/password, exactly two fields use the first and second, and
fewer than two fields are answered `535 Authentication failed` leaving
the session unauthenticated; whenever the selected pair mismatches the
configured credentials the reply is likewise `535` with state
unchanged. -/
theorem auth_plain_shape_amended (acfg : AuthConfig) (st : SessionState)
    (decoded : List Char) :
    (3 ≤ (splitNul decoded).length →
      authPlainDecodedCheck acfg st decoded =
        (if (splitNul decoded).getD 1 [] = acfg.username
            ∧ (splitNul decoded).getD 2 [] = acfg.password then
          (.authSuccess235,
           { st with authenticated := true,
                     auth_user := (splitNul decoded).getD 1 [] })
        else (.authFailed535, st)))
    ∧ ((splitNul decoded).length = 2 →
      authPlainDecodedCheck acfg st decoded =
        (if (splitNul decoded).getD 0 [] = acfg.username
            ∧ (splitNul decoded).getD 1 [] = acfg.password then
          (.authSuccess235,
           { st with authenticated := true,
                     auth_user := (splitNul decoded).getD 0 [] })
        else (.authFailed535, st)))
    ∧ ((splitNul decoded).length < 2 →
      authPlainDecodedCheck acfg st decoded = (.authFailed535, st)) := by
  refine ⟨fun h3 => ?_, fun h2 => ?_, fun h1 => ?_⟩
  · simp only [authPlainDecodedCheck, if_pos h3]
  · have : ¬ 3 ≤ (splitNul decoded).length := by omega
    simp only [authPlainDecodedCheck, if_neg this, if_pos h2]
  · have h3 : ¬ 3 ≤ (splitNul decoded).length := by omega
    have h2 : ¬ (splitNul decoded).length = 2 := by omega
    simp only [authPlainDecodedCheck, if_neg h3, if_neg h2]

/-- C3 (witness): a one-field decoded blob (`abc`, no NUL) is rejected. -/
theorem auth_plain_shape_amended_witness :
    authPlainDecodedCheck cfgAuthTLS.auth (initialState ("ip".data)) ("abc".data)
      = (.authFailed535, initialState ("ip".data)) := by
  have h := auth_plain_shape_amended cfgAuthTLS.auth (initialState ("ip".data)) ("abc".data)
  exact h.2.2 (by decide)

/-! C8 -/

/-- C8 (counterexample).  `_handle_ehlo` consults only
`config.tls.enabled`, never whether the transport is already
TLS-wrapped: in a run that performs a successful STARTTLS upgrade and
then re-issues EHLO, the post-upgrade EHLO block still contains the
`250-STARTTLS` line (the final state confirms the upgrade took
effect). -/
theorem ehlo_starttls_counterexample :
    sessionRun cfgPlainTLS ("ip".data)
        [.line ("STARTTLS\r\n".data), .line ("EHLO x\r\n".data),
         .line ("QUIT\r\n".data)] [true]
      = ([.greeting ("test".data), .readyTLS220,
          .ehlo (.hello ("test".data)), .ehlo .starttls,
          .ehlo (.size 100), .ehlo .ok, .bye221],
         { authenticated := false, auth_user := [], mail_from := [],
           rcpt_to := [], client_ip := ("ip".data), tlsWrapped := true }, [])
    ∧ Reply.ehlo .starttls
        ∈ (sessionRun cfgPlainTLS ("ip".data)
            [.line ("STARTTLS\r\n".data), .line ("EHLO x\r\n".data),
             .line ("QUIT\r\n".data)] [true]).1 := by
  exact ⟨by decide, by decide⟩

/-- C8 (amended).  The EHLO reply contains the `250-STARTTLS` line iff
TLS is enabled in configuration, regardless of whether the session is
already TLS-wrapped: the EHLO handler reads no session state, so its
reply block is the same function of the configuration before and after
an upgrade. -/
theorem ehlo_starttls_amended (cfg : SMTPConfig) :
    (EhloLine.starttls ∈ ehloLines cfg ↔ cfg.tls.enabled = true)
    ∧ (∀ st evs hs,
        (processCommand cfg st ("EHLO x".data) evs hs).replies
          = (ehloLines cfg).map Reply.ehlo) := by
  constructor
  · unfold ehloLines
    rcases cfg.tls with ⟨e⟩
    cases e <;> split <;> simp
  · intro st evs hs
    rfl

/-! C9 -/

/-- C9 (confirmed).  A syntactically valid MAIL FROM issued while a
transaction is already open overwrites `mail_from` with the newly
extracted address but leaves `rcpt_to` (and the auth fields) exactly as
they were, replying `250 OK`. -/
theorem mail_overwrite_preserves_rcpt (cfg : SMTPConfig) (st : SessionState)
    (line : List Char) (idx : Nat)
    (hauth : ¬ (cfg.auth.required ∧ ¬ st.authenticated))
    (_hopen : ¬ st.rcpt_to = [])
    (hvalid : findSub ("FROM:".data) (pyUpper line) = some idx) :
    handle_mail cfg st line
      = ([.ok250], { st with mail_from := mailAddrAt line idx })
    ∧ (handle_mail cfg st line).2.rcpt_to = st.rcpt_to
    ∧ (handle_mail cfg st line).2.authenticated = st.authenticated
    ∧ (handle_mail cfg st line).2.auth_user = st.auth_user := by
  have h : handle_mail cfg st line
      = ([.ok250], { st with mail_from := mailAddrAt line idx }) := by
    unfold handle_mail
    rw [if_neg hauth, hvalid]
  refine ⟨h, ?_, ?_, ?_⟩ <;> rw [h]

/-- C9 (witness): with two recipients already accumulated, a second
MAIL FROM replaces the sender and keeps both recipients. -/
theorem mail_overwrite_preserves_rcpt_witness :
    handle_mail cfgMax4 { stReady with rcpt_to := [("b@y".data), ("c@z".data)] }
        ("MAIL FROM:<d@w>".data)
      = ([.ok250],
         { stReady with rcpt_to := [("b@y".data), ("c@z".data)],
                        mail_from := mailAddrAt ("MAIL FROM:<d@w>".data) 5 })
    ∧ (handle_mail cfgMax4 { stReady with rcpt_to := [("b@y".data), ("c@z".data)] }
        ("MAIL FROM:<d@w>".data)).2.rcpt_to = [("b@y".data), ("c@z".data)] := by
  have h := mail_overwrite_preserves_rcpt cfgMax4
    { stReady with rcpt_to := [("b@y".data), ("c@z".data)] }
    ("MAIL FROM:<d@w>".data) 5 (by decide) (by decide) (by decide)
  exact ⟨h.1, h.2.1⟩

/-! C10 -/

/-- C10 (confirmed).  When TLS is enabled but the handshake fails, the
`454 TLS not available` branch of `_handle_starttls` leaves the session
state untouched (auth fields, transaction fields, and the plaintext
transport alike) and the command loop keeps running. -/
theorem starttls_failure_frame (cfg : SMTPConfig) (st : SessionState)
    (rest : List Bool) (h : cfg.tls.enabled = true) :
    handle_starttls cfg st (false :: rest)
      = ([.readyTLS220, .tlsNotAvail454], st, rest)
    ∧ (∀ evs,
        (processCommand cfg st ("STARTTLS".data) evs (false :: rest)).state = st
        ∧ (processCommand cfg st ("STARTTLS".data) evs (false :: rest)).keepOpen
          = true) := by
  have hne : ¬ ¬ cfg.tls.enabled = true := by simp [h]
  have h1 : handle_starttls cfg st (false :: rest)
      = ([.readyTLS220, .tlsNotAvail454], st, rest) := by
    unfold handle_starttls
    rw [if_neg hne]
    rfl
  refine ⟨h1, fun evs => ⟨?_, rfl⟩⟩
  show (handle_starttls cfg st (false :: rest)).2.1 = st
  rw [h1]

/-- C10 (witness): concrete failed handshake with TLS enabled. -/
theorem starttls_failure_frame_witness :
    handle_starttls cfgPlainTLS (initialState ("ip".data)) [false]
      = ([.readyTLS220, .tlsNotAvail454], initialState ("ip".data), [])
    ∧ (processCommand cfgPlainTLS (initialState ("ip".data)) ("STARTTLS".data)
        [] [false]).state = initialState ("ip".data) := by
  have h := starttls_failure_frame cfgPlainTLS (initialState ("ip".data)) []
    (by decide)
  exact ⟨h.1, (h.2 []).1⟩

/-! C2 -/

/-- C2 (counterexample).  A timeout on the AUTH LOGIN username
continuation read is an `asyncio.TimeoutError`, which the mechanism's
blanket `except Exception` swallows: the session replies
`535 Authentication failed` — never `421 Timeout` — and keeps running,
as the subsequent NOOP (`250 OK`) and QUIT (`221 Bye`) show. -/
theorem timeout_reply_counterexample :
    sessionRun cfgAuthTLS ("ip".data)
        [.line ("AUTH LOGIN\r\n".data), .timeout,
         .line ("NOOP\r\n".data), .line ("QUIT\r\n".data)] []
      = ([.greeting ("test".data), .userPrompt334, .authFailed535,
          .ok250, .bye221],
         initialState ("ip".data), [])
    ∧ Reply.timeout421
        ∉ (sessionRun cfgAuthTLS ("ip".data)
            [.line ("AUTH LOGIN\r\n".data), .timeout,
             .line ("NOOP\r\n".data), .line ("QUIT\r\n".data)] []).1 := by
  exact ⟨by decide, by decide⟩

/-- C2 (amended).  A single-line read exceeding `read_timeout_seconds`
yields `421 Timeout` followed by session close for command-line reads,
for the AUTH PLAIN continuation read, and for DATA body reads; the two
AUTH LOGIN continuation reads are the exception — a timeout there is
caught by the mechanism's generic handler, answered
`535 Authentication failed`, and the session stays open. -/
theorem timeout_reply_amended :
    (∀ (cfg : SMTPConfig) (fuel : Nat) (st : SessionState)
        (evs : List InEvent) (hs : List Bool),
      sessionLoop cfg (fuel + 1) st (.timeout :: evs) hs = ([.timeout421], st, []))
    ∧ (∀ (acfg : AuthConfig) (st : SessionState) (parts : List (List Char))
        (evs : List InEvent), ¬ parts.length = 3 →
      handle_auth_plain acfg st parts (.timeout :: evs)
        = ([.contBlank334, .timeout421], false, st, evs))
    ∧ (∀ (cfg : SMTPConfig) (st : SessionState) (evs evs' : List InEvent),
        ¬ (cfg.auth.required ∧ ¬ st.authenticated) →
        ¬ st.mail_from = [] → ¬ st.rcpt_to = [] →
        dataLoop cfg.maxMessageBytes evs [] 0 = (.timedOut, evs') →
      handle_data cfg st evs = ([.startInput354, .timeout421], false, st, evs', []))
    ∧ (∀ (maxB : Nat) (evs : List InEvent) (acc : List Char) (total : Nat),
      dataLoop maxB (.timeout :: evs) acc total = (.timedOut, evs))
    ∧ (∀ (acfg : AuthConfig) (st : SessionState) (evs : List InEvent),
      handle_auth_login acfg st (.timeout :: evs)
        = ([.userPrompt334, .authFailed535], true, st, evs))
    ∧ (∀ (acfg : AuthConfig) (st : SessionState) (l u : List Char)
        (evs : List InEvent), b64decode (pyStrip l) = some u →
      handle_auth_login acfg st (.line l :: .timeout :: evs)
        = ([.userPrompt334, .passPrompt334, .authFailed535], true, st, evs)) := by
  refine ⟨fun cfg fuel st evs hs => rfl,
          fun acfg st parts evs hne => ?_,
          fun cfg st evs evs' hauth hm hr hdl => ?_,
          fun maxB evs acc total => rfl,
          fun acfg st evs => rfl,
          fun acfg st l u evs hdec => ?_⟩
  · unfold handle_auth_plain
    rw [if_neg hne]
    rfl
  · have hseq : ¬ (st.mail_from = [] ∨ st.rcpt_to = []) := by
      simp [hm, hr]
    unfold handle_data
    rw [if_neg hauth, if_neg hseq, hdl]
  · unfold handle_auth_login
    simp only [readEv, hdec]

/-- C2 (witness): concrete instantiations of each amended conjunct. -/
theorem timeout_reply_amended_witness :
    sessionLoop cfgAuthTLS 1 (initialState ("ip".data)) [.timeout] []
      = ([.timeout421], initialState ("ip".data), [])
    ∧ handle_auth_plain cfgAuthTLS.auth (initialState ("ip".data))
        [("AUTH".data), ("PLAIN".data)] [.timeout]
      = ([.contBlank334, .timeout421], false, initialState ("ip".data), [])
    ∧ handle_data cfgAuthTLS stReady [.timeout]
      = ([.startInput354, .timeout421], false, stReady, [], [])
    ∧ handle_auth_login cfgAuthTLS.auth (initialState ("ip".data))
        [.line ("dQ==".data), .timeout]
      = ([.userPrompt334, .passPrompt334, .authFailed535], true,
         initialState ("ip".data), []) := by
  have h := timeout_reply_amended
  exact ⟨h.1 cfgAuthTLS 0 (initialState ("ip".data)) [] [],
         h.2.1 cfgAuthTLS.auth (initialState ("ip".data))
           [("AUTH".data), ("PLAIN".data)] [] (by decide),
         h.2.2.1 cfgAuthTLS stReady [.timeout] [] (by decide) (by decide)
           (by decide) (by decide),
         h.2.2.2.2.2 cfgAuthTLS.auth (initialState ("ip".data)) ("dQ==".data)
           ("u".data) [] (by decide)⟩

/-! C4 -/

/-- C4 (counterexample).  Nothing in the source tracks whether EHLO was
re-issued: with `auth.required = true`, a session that upgrades via
STARTTLS, then sends AUTH PLAIN (base64 of `\x00u\x00p`) and
MAIL FROM — with no EHLO at any point — gets `235` and `250 OK`, so
MAIL succeeded although a new EHLO was never completed (no `.ehlo`
reply appears in the run). -/
theorem starttls_requires_ehlo_counterexample :
    sessionRun cfgAuthTLS ("ip".data)
        [.line ("STARTTLS\r\n".data), .line ("AUTH PLAIN AHUAcA==\r\n".data),
         .line ("MAIL FROM:<a@x>\r\n".data), .line ("QUIT\r\n".data)] [true]
      = ([.greeting ("test".data), .readyTLS220, .authSuccess235, .ok250,
          .bye221],
         { authenticated := true, auth_user := ("u".data),
           mail_from := ("a@x".data), rcpt_to := [],
           client_ip := ("ip".data), tlsWrapped := true }, [])
    ∧ (∀ l : EhloLine,
        Reply.ehlo l
          ∉ (sessionRun cfgAuthTLS ("ip".data)
              [.line ("STARTTLS\r\n".data), .line ("AUTH PLAIN AHUAcA==\r\n".data),
               .line ("MAIL FROM:<a@x>\r\n".data), .line ("QUIT\r\n".data)]
              [true]).1) := by
  refine ⟨by decide, ?_⟩
  intro l
  have h : sessionRun cfgAuthTLS ("ip".data)
        [.line ("STARTTLS\r\n".data), .line ("AUTH PLAIN AHUAcA==\r\n".data),
         .line ("MAIL FROM:<a@x>\r\n".data), .line ("QUIT\r\n".data)] [true]
      = ([.greeting ("test".data), .readyTLS220, .authSuccess235, .ok250,
          .bye221],
         { authenticated := true, auth_user := ("u".data),
           mail_from := ("a@x".data), rcpt_to := [],
           client_ip := ("ip".data), tlsWrapped := true }, []) := by decide
  rw [h]
  simp

/-- C4 (amended).  A successful STARTTLS upgrade leaves
`authenticated = false`, `auth_user = ""`, `mail_from = ""`,
`rcpt_to = ∅`; when `auth.required` is true every subsequent
MAIL/RCPT/DATA — including a MAIL issued right after the upgrade, even
if the pre-TLS session had authenticated — is rejected with `530` until
a new AUTH succeeds.  Re-issuing EHLO is expected of the client but not
enforced, and when `auth.required` is false no AUTH is needed either. -/
theorem starttls_reset_amended (cfg : SMTPConfig) (st : SessionState)
    (hs : List Bool) (henabled : cfg.tls.enabled = true) :
    (handle_starttls cfg st (true :: hs)).2.1 = postUpgrade st
    ∧ (∀ line, cfg.auth.required = true →
        handle_mail cfg (postUpgrade st) line
          = ([.authRequired530], postUpgrade st))
    ∧ (∀ line, cfg.auth.required = true →
        handle_rcpt cfg (postUpgrade st) line
          = ([.authRequired530], postUpgrade st))
    ∧ (∀ evs, cfg.auth.required = true →
        handle_data cfg (postUpgrade st) evs
          = ([.authRequired530], true, postUpgrade st, evs, [])) := by
  have hne : ¬ ¬ cfg.tls.enabled = true := by simp [henabled]
  refine ⟨?_, fun line hreq => ?_, fun line hreq => ?_, fun evs hreq => ?_⟩
  · unfold handle_starttls
    rw [if_neg hne]
    rfl
  · unfold handle_mail
    rw [if_pos ⟨hreq, by simp [postUpgrade]⟩]
  · unfold handle_rcpt
    rw [if_pos ⟨hreq, by simp [postUpgrade]⟩]
  · unfold handle_data
    rw [if_pos ⟨hreq, by simp [postUpgrade]⟩]

/-- C4 (witness): a pre-TLS authenticated session with an open
transaction is fully reset by the upgrade, and MAIL right after the
upgrade gets `530`. -/
theorem starttls_reset_amended_witness :
    (handle_starttls cfgAuthTLS stReady [true]).2.1 = postUpgrade stReady
    ∧ handle_mail cfgAuthTLS (postUpgrade stReady) ("MAIL FROM:<a@x>".data)
      = ([.authRequired530], postUpgrade stReady) := by
  have h := starttls_reset_amended cfgAuthTLS stReady [] (by decide)
  exact ⟨h.1, h.2.1 ("MAIL FROM:<a@x>".data) (by decide)⟩

/-! C7 -/

/-- C7 (confirmed).  RSET replies `250 OK` and resets the transaction;
a DATA that commits a message (its reply list contains
`250 OK: Message accepted`) leaves the same reset state — in both
cases `mail_from = ""`, `rcpt_to = ∅`, while `authenticated`,
`auth_user` and `client_ip` keep the values they had before the
command. -/
theorem rset_data_frame (cfg : SMTPConfig) (st : SessionState)
    (evs : List InEvent) :
    handle_rset st = ([.ok250], resetTransaction st)
    ∧ (resetTransaction st).mail_from = []
    ∧ (resetTransaction st).rcpt_to = []
    ∧ (resetTransaction st).authenticated = st.authenticated
    ∧ (resetTransaction st).auth_user = st.auth_user
    ∧ (resetTransaction st).client_ip = st.client_ip
    ∧ (Reply.accepted250 ∈ (handle_data cfg st evs).1 →
        (handle_data cfg st evs).2.2.1 = resetTransaction st) := by
  refine ⟨rfl, rfl, rfl, rfl, rfl, rfl, ?_⟩
  unfold handle_data
  split
  · intro h
    simp at h
  · split
    · intro h
      simp at h
    · split
      · intro h
        simp at h
      · intro _
        rfl
      · intro h
        simp at h
      · intro _
        rfl

/-- C7 (witness): a concrete committing DATA ends in the reset state. -/
theorem rset_data_frame_witness :
    (handle_data cfgMax4 stReady
        [.line ("hi\r\n".data), .line (".\r\n".data)]).2.2.1
      = resetTransaction stReady := by
  have h := rset_data_frame cfgMax4 stReady
    [.line ("hi\r\n".data), .line (".\r\n".data)]
  exact h.2.2.2.2.2.2 (by decide)

/-! C5 -/

theorem unstuffed_length (bls : List (List Char)) :
    (unstuffed bls).length = unstuffedSize bls := by
  simp only [unstuffed, unstuffedSize, List.length_flatten, List.map_map]
  rfl

/-- Processing a block of non-terminator body lines whose unstuffed
bytes fit under the ceiling just accumulates them and advances the
running total. -/
theorem dataLoop_body_append (maxB : Nat) (bls : List (List Char)) :
    ∀ (evs : List InEvent) (acc : List Char) (total : Nat),
      (∀ l ∈ bls, isTerminator l = false) →
      total + unstuffedSize bls ≤ maxB →
      dataLoop maxB (bls.map InEvent.line ++ evs) acc total
        = dataLoop maxB evs (acc ++ unstuffed bls) (total + unstuffedSize bls) := by
  induction bls with
  | nil =>
      intro evs acc total _ _
      simp [unstuffed, unstuffedSize]
  | cons b bs ih =>
      intro evs acc total hterm hsum
      have hb : isTerminator b = false := hterm b (by simp)
      have hsz : unstuffedSize (b :: bs)
          = (unstuff b).length + unstuffedSize bs := by
        simp [unstuffedSize]
      rw [hsz] at hsum
      have hnot : ¬ total + (unstuff b).length > maxB := by omega
      simp only [List.map_cons, List.cons_append, dataLoop, hb,
        Bool.false_eq_true, if_false, if_neg hnot, List.append_eq]
      rw [ih evs (acc ++ unstuff b) (total + (unstuff b).length)
            (fun l hl => hterm l (List.mem_cons_of_mem b hl)) (by omega)]
      have hu : acc ++ unstuff b ++ unstuffed bs = acc ++ unstuffed (b :: bs) := by
        simp [unstuffed, List.append_assoc]
      have ht : total + (unstuff b).length + unstuffedSize bs
          = total + unstuffedSize (b :: bs) := by
        rw [hsz]; omega
      rw [hu, ht]

/-- C5 (confirmed).  With an open transaction (and auth satisfied), a
DATA body whose unstuffed bytes total exactly `max_message_bytes` is
accepted and committed with `size_bytes = max_message_bytes`, while a
body whose total reaches `max_message_bytes + 1` is rejected with
`552 Message too large`: the transaction is reset (`mail_from = ""`,
`rcpt_to = ∅`), nothing is persisted, and the handler keeps the session
open for further commands instead of closing it. -/
theorem data_size_boundary (cfg : SMTPConfig) (st : SessionState)
    (body : List (List Char)) (lastLine : List Char) (rest : List InEvent)
    (hauth : ¬ (cfg.auth.required ∧ ¬ st.authenticated))
    (hm : ¬ st.mail_from = []) (hr : ¬ st.rcpt_to = [])
    (hterm : ∀ l ∈ body, isTerminator l = false) :
    (unstuffedSize body = cfg.maxMessageBytes →
      handle_data cfg st (body.map InEvent.line ++ [.line (".\r\n".data)] ++ rest)
        = ([.startInput354, .accepted250], true, resetTransaction st, rest,
           [mkEmail st (unstuffed body)])
      ∧ (mkEmail st (unstuffed body)).size_bytes = cfg.maxMessageBytes)
    ∧ (isTerminator lastLine = false →
       unstuffedSize body ≤ cfg.maxMessageBytes →
       unstuffedSize body + (unstuff lastLine).length = cfg.maxMessageBytes + 1 →
      handle_data cfg st (body.map InEvent.line ++ [.line lastLine] ++ rest)
        = ([.startInput354, .tooLarge552], true, resetTransaction st, rest, [])
      ∧ (resetTransaction st).mail_from = []
      ∧ (resetTransaction st).rcpt_to = []) := by
  have hseq : ¬ (st.mail_from = [] ∨ st.rcpt_to = []) := by simp [hm, hr]
  constructor
  · intro hsum
    constructor
    · unfold handle_data
      rw [if_neg hauth, if_neg hseq]
      rw [List.append_assoc,
        dataLoop_body_append cfg.maxMessageBytes body _ [] 0 hterm (by omega)]
      have hstep : dataLoop cfg.maxMessageBytes
          ([InEvent.line (".\r\n".data)] ++ rest) ([] ++ unstuffed body)
          (0 + unstuffedSize body)
          = (.completed (unstuffed body), rest) := by
        simp [dataLoop, isTerminator]
      rw [hstep]
    · simp [mkEmail, unstuffed_length, hsum]
  · intro hterm2 hle hplus
    refine ⟨?_, rfl, rfl⟩
    unfold handle_data
    rw [if_neg hauth, if_neg hseq]
    rw [List.append_assoc,
      dataLoop_body_append cfg.maxMessageBytes body _ [] 0 hterm (by omega)]
    have hstep : dataLoop cfg.maxMessageBytes
        ([InEvent.line lastLine] ++ rest) ([] ++ unstuffed body)
        (0 + unstuffedSize body)
        = (.tooLarge, rest) := by
      simp only [List.singleton_append, dataLoop, hterm2, Bool.false_eq_true,
        if_false]
      rw [if_pos (by omega)]
      simp
    rw [hstep]

/-- C5 (witness): with a 4-byte ceiling, the 4-byte body `hi\r\n` is
accepted and a following 1-byte line tips the same body over into
`552`. -/
theorem data_size_boundary_witness :
    (handle_data cfgMax4 stReady
        [.line ("hi\r\n".data), .line (".\r\n".data)]
      = ([.startInput354, .accepted250], true, resetTransaction stReady, [],
         [mkEmail stReady (unstuffed [("hi\r\n".data)])])
      ∧ (mkEmail stReady (unstuffed [("hi\r\n".data)])).size_bytes
        = cfgMax4.maxMessageBytes)
    ∧ (handle_data cfgMax4 stReady
        [.line ("hi\r\n".data), .line ("x".data)]
      = ([.startInput354, .tooLarge552], true, resetTransaction stReady, [], [])) := by
  have h := data_size_boundary cfgMax4 stReady [("hi\r\n".data)] ("x".data) []
    (by decide) (by decide) (by decide) (by decide)
  exact ⟨h.1 (by decide), (h.2 (by decide) (by decide) (by decide)).1⟩

/-! C6 -/

theorem authPlainDecodedCheck_rcpt (acfg : AuthConfig) (st : SessionState)
    (d : List Char) :
    (authPlainDecodedCheck acfg st d).2.rcpt_to = st.rcpt_to := by
  by_cases h3 : 3 ≤ (splitNul d).length
  · simp only [authPlainDecodedCheck, if_pos h3]
    split <;> rfl
  · by_cases h2 : (splitNul d).length = 2
    · simp only [authPlainDecodedCheck, if_neg h3, if_pos h2]
      split <;> rfl
    · simp only [authPlainDecodedCheck, if_neg h3, if_neg h2]

theorem authPlainVerify_rcpt (acfg : AuthConfig) (st : SessionState)
    (creds : List Char) :
    (authPlainVerify acfg st creds).2.rcpt_to = st.rcpt_to := by
  unfold authPlainVerify
  split
  · rfl
  · exact authPlainDecodedCheck_rcpt acfg st _

theorem handle_auth_plain_rcpt (acfg : AuthConfig) (st : SessionState)
    (parts : List (List Char)) (evs : List InEvent) :
    (handle_auth_plain acfg st parts evs).2.2.1.rcpt_to = st.rcpt_to := by
  unfold handle_auth_plain
  split
  · exact authPlainVerify_rcpt acfg st _
  · split
    · rfl
    · exact authPlainVerify_rcpt acfg st _

theorem handle_auth_login_rcpt (acfg : AuthConfig) (st : SessionState)
    (evs : List InEvent) :
    (handle_auth_login acfg st evs).2.2.1.rcpt_to = st.rcpt_to := by
  unfold handle_auth_login
  split
  · rfl
  · split
    · rfl
    · split
      · rfl
      · split
        · rfl
        · split <;> rfl

theorem handle_auth_rcpt (acfg : AuthConfig) (st : SessionState)
    (line : List Char) (evs : List InEvent) :
    (handle_auth acfg st line evs).2.2.1.rcpt_to = st.rcpt_to := by
  simp only [handle_auth]
  split
  · rfl
  · split
    · exact handle_auth_plain_rcpt acfg st _ evs
    · split
      · exact handle_auth_login_rcpt acfg st evs
      · rfl

theorem handle_mail_rcpt (cfg : SMTPConfig) (st : SessionState)
    (line : List Char) :
    (handle_mail cfg st line).2.rcpt_to = st.rcpt_to := by
  unfold handle_mail
  split
  · rfl
  · split <;> rfl

theorem handle_rcpt_bound (cfg : SMTPConfig) (st : SessionState)
    (line : List Char) (h : st.rcpt_to.length ≤ cfg.maxRecipients) :
    (handle_rcpt cfg st line).2.rcpt_to.length ≤ cfg.maxRecipients := by
  unfold handle_rcpt
  split
  · exact h
  · by_cases hge : cfg.maxRecipients ≤ st.rcpt_to.length
    · rw [if_pos hge]
      exact h
    · rw [if_neg hge]
      split
      · exact h
      · simp only [List.length_append, List.length_cons, List.length_nil]
        omega

theorem handle_data_rcpt (cfg : SMTPConfig) (st : SessionState)
    (evs : List InEvent) :
    (handle_data cfg st evs).2.2.1.rcpt_to = st.rcpt_to
    ∨ (handle_data cfg st evs).2.2.1.rcpt_to = [] := by
  unfold handle_data
  split
  · exact Or.inl rfl
  · split
    · exact Or.inl rfl
    · split
      · exact Or.inl rfl
      · exact Or.inr rfl
      · exact Or.inl rfl
      · exact Or.inr rfl

theorem handle_starttls_rcpt (cfg : SMTPConfig) (st : SessionState)
    (hs : List Bool) :
    (handle_starttls cfg st hs).2.1.rcpt_to = st.rcpt_to
    ∨ (handle_starttls cfg st hs).2.1.rcpt_to = [] := by
  unfold handle_starttls
  split
  · exact Or.inl rfl
  · split
    · exact Or.inl rfl
    · split
      · exact Or.inr rfl
      · exact Or.inl rfl

/-- Every command handler keeps the recipient list within
`max_recipients`. -/
theorem processCommand_rcpt_bound (cfg : SMTPConfig) (st : SessionState)
    (line : List Char) (evs : List InEvent) (hs : List Bool)
    (h : st.rcpt_to.length ≤ cfg.maxRecipients) :
    (processCommand cfg st line evs hs).state.rcpt_to.length
      ≤ cfg.maxRecipients := by
  unfold processCommand
  split
  · exact h
  · show (handle_auth cfg.auth st line evs).2.2.1.rcpt_to.length ≤ _
    rw [handle_auth_rcpt]
    exact h
  · show (handle_mail cfg st line).2.rcpt_to.length ≤ _
    rw [handle_mail_rcpt]
    exact h
  · exact handle_rcpt_bound cfg st line h
  · show (handle_data cfg st evs).2.2.1.rcpt_to.length ≤ _
    rcases handle_data_rcpt cfg st evs with hd | hd <;> rw [hd]
    · exact h
    · exact Nat.zero_le _
  · exact Nat.zero_le _
  · exact h
  · exact h
  · show (handle_starttls cfg st hs).2.1.rcpt_to.length ≤ _
    rcases handle_starttls_rcpt cfg st hs with hd | hd <;> rw [hd]
    · exact h
    · exact Nat.zero_le _
  · exact h

/-- Any `Email` built by `_handle_data` from a state within the
recipient bound has a non-empty sender and between 1 and
`max_recipients` recipients: DATA refuses empty `mail_from` or empty
`rcpt_to` with `503` before reading any body. -/
theorem handle_data_emails (cfg : SMTPConfig) (st : SessionState)
    (evs : List InEvent) (h : st.rcpt_to.length ≤ cfg.maxRecipients) :
    ∀ e ∈ (handle_data cfg st evs).2.2.2.2,
      ¬ e.sender = [] ∧ 1 ≤ e.recipients.length
      ∧ e.recipients.length ≤ cfg.maxRecipients := by
  unfold handle_data
  split
  · intro e he
    simp at he
  · split
    · intro e he
      simp at he
    · rename_i hseq
      rw [not_or] at hseq
      split
      · intro e he
        simp at he
      · intro e he
        simp at he
      · intro e he
        simp at he
      · intro e he
        simp only [List.mem_singleton] at he
        subst he
        simp only [mkEmail]
        refine ⟨hseq.1, ?_, h⟩
        have hpos := List.length_pos.mpr (hseq.2 : st.rcpt_to ≠ [])
        omega

theorem processCommand_emails (cfg : SMTPConfig) (st : SessionState)
    (line : List Char) (evs : List InEvent) (hs : List Bool)
    (h : st.rcpt_to.length ≤ cfg.maxRecipients) :
    ∀ e ∈ (processCommand cfg st line evs hs).emails,
      ¬ e.sender = [] ∧ 1 ≤ e.recipients.length
      ∧ e.recipients.length ≤ cfg.maxRecipients := by
  unfold processCommand
  split
  · intro e he; simp at he
  · intro e he; simp at he
  · intro e he; simp at he
  · intro e he; simp at he
  · exact handle_data_emails cfg st evs h
  · intro e he; simp at he
  · intro e he; simp at he
  · intro e he; simp at he
  · intro e he; simp at he
  · intro e he; simp at he

/-- The command loop never hands the store a malformed `Email`,
whatever the fuel, events and handshake oracle. -/
theorem sessionLoop_emails (cfg : SMTPConfig) :
    ∀ (fuel : Nat) (st : SessionState) (evs : List InEvent) (hs : List Bool),
      st.rcpt_to.length ≤ cfg.maxRecipients →
      ∀ e ∈ (sessionLoop cfg fuel st evs hs).2.2,
        ¬ e.sender = [] ∧ 1 ≤ e.recipients.length
        ∧ e.recipients.length ≤ cfg.maxRecipients := by
  intro fuel
  induction fuel with
  | zero =>
      intro st evs hs _ e he
      simp [sessionLoop] at he
  | succ n ih =>
      intro st evs hs hb e he
      cases evs with
      | nil => simp [sessionLoop] at he
      | cons ev rest =>
          cases ev with
          | timeout => simp [sessionLoop] at he
          | line l =>
              by_cases hl : l = []
              · simp [sessionLoop, hl] at he
              · by_cases hstrip : pyStrip l = []
                · simp only [sessionLoop, if_neg hl, if_pos hstrip] at he
                  exact ih st rest hs hb e he
                · simp only [sessionLoop, if_neg hl, if_neg hstrip] at he
                  by_cases hk : (processCommand cfg st (pyStrip l) rest hs).keepOpen
                  · simp only [if_pos hk] at he
                    rcases List.mem_append.mp he with h1 | h2
                    · exact processCommand_emails cfg st (pyStrip l) rest hs hb e h1
                    · exact ih _ _ _
                        (processCommand_rcpt_bound cfg st (pyStrip l) rest hs hb)
                        e h2
                  · simp only [if_neg hk] at he
                    exact processCommand_emails cfg st (pyStrip l) rest hs hb e he

/-- C6 (confirmed).  Every `Email` a session hands to the store has a
non-empty sender and between 1 and `max_recipients` recipients: a
`MAIL FROM:<>` transaction (empty `mail_from`) and an empty recipient
list are both refused by DATA's `503` guard, and RCPT at the limit
replies `452` without appending. -/
theorem persisted_email_wellformed (cfg : SMTPConfig) (ip : List Char)
    (evs : List InEvent) (hs : List Bool) :
    (∀ e ∈ (sessionRun cfg ip evs hs).2.2,
      ¬ e.sender = [] ∧ 1 ≤ e.recipients.length
      ∧ e.recipients.length ≤ cfg.maxRecipients)
    ∧ (∀ (st : SessionState) (line : List Char),
        cfg.maxRecipients ≤ st.rcpt_to.length →
        (handle_rcpt cfg st line).2 = st)
    ∧ (∀ (st : SessionState) (evs' : List InEvent),
        st.mail_from = [] → ¬ (cfg.auth.required ∧ ¬ st.authenticated) →
        handle_data cfg st evs' = ([.badSeq503], true, st, evs', [])) := by
  refine ⟨?_, ?_, ?_⟩
  · intro e he
    exact sessionLoop_emails cfg (evs.length + 1) (initialState ip) evs hs
      (Nat.zero_le _) e he
  · intro st line hge
    unfold handle_rcpt
    split
    · rfl
    · rfl
  · intro st evs' hm hauth
    unfold handle_data
    rw [if_neg hauth, if_pos (Or.inl hm)]

/-- C6 (witness): the demo submission's stored email is well-formed. -/
theorem persisted_email_wellformed_witness :
    ¬ demoEmail.sender = [] ∧ 1 ≤ demoEmail.recipients.length
    ∧ demoEmail.recipients.length ≤ cfgMax4.maxRecipients := by
  have h := persisted_email_wellformed cfgMax4 ("ip".data) demoEvs []
  exact h.1 demoEmail (by decide)

end SMTPProxy

